import Mathlib

/-!
Shallow embedding of the LTC2942 gas-gauge driver (DelfiSpace/LTC2942,
files `LTC2942.cpp` / `LTC2942.h`) and verification of its specification.

Machine-integer conventions: the target (MSP432) has 32-bit `int` /
`unsigned int` / `unsigned long` and 16-bit `short` / `unsigned short`.
Every intermediate product appearing in the source is bounded well below
2^31 (checked in comments at each definition), so the C arithmetic is
exact and is modelled directly on `Nat` / `Int` without reduction
modulo 2^32.
-/

namespace LTC2942

/-! ### Register addresses and constants (from `LTC2942.h`) -/

def STATUS_REG : Nat := 0x00
def CONTROL_REG : Nat := 0x01
def ACCUM_CHARGE_MSB_REG : Nat := 0x02
def ACCUM_CHARGE_LSB_REG : Nat := 0x03
def VOLTAGE_MSB_REG : Nat := 0x08
def VOLTAGE_LSB_REG : Nat := 0x09
def TEMPERATURE_MSB_REG : Nat := 0x0C
def TEMPERATURE_LSB_REG : Nat := 0x0D

def SHUTDOWN_MODE : Nat := 0x01

def FULLSCALE_VOLTAGE : Nat := 6000
def FULLSCALE_TEMPERATURE : Nat := 600

def USHRT_MAX : Nat := 65535
def SHRT_MAX : Int := 32767

/-- Return code for a successful transport operation.  The `.cpp` doc
comments document the convention: `0 success`, `1 fail` (the named
constants live in the external `DWire.h`). -/
def SUCCESS : Nat := 0

/-- Return code for a failed transport operation (`1 fail`). -/
def FAIL : Nat := 1

/-! ### Constructor: prescaler search (`LTC2942::LTC2942`, LTC2942.cpp 25-48)

The C loop is

  M = 7;
  for (k = 128; k > 1; k = k / 2) {
      a = 278524 * k / R / 128;
      if (a < (2 * Q)) break;
      M--;
  }

It visits exactly the dividers 128, 64, 32, 16, 8, 4, 2 (the guard is
`k > 1`), and when it exits without breaking the final halving leaves
`k = 1`.  `278524 * k ≤ 278524 * 128 = 35651072 < 2^31`, so the unsigned
arithmetic is exact.  `M` starts at 7 and is decremented at most once per
iteration (at most 7 times), so the C `M--` never wraps and is Nat
subtraction here. -/

/-- Maximum representable capacity for divider `k` and sense resistance
`R`: the loop body expression `278524 * k / R / 128`. -/
def repCap (R k : Nat) : Nat := 278524 * k / R / 128

/-- The constructor's prescaler loop over the remaining divider values.
Returns the pair `(M, k)` left in the C locals when the loop stops:
on `break` the current `(M, k)`, on normal exit `(M, 1)`. -/
def prescLoop (Q R : Nat) : List Nat → Nat → Nat × Nat
  | [], M => (M, 1)
  | k :: ks, M =>
      if repCap R k < 2 * Q then (M, k) else prescLoop Q R ks (M - 1)

/-- The divider values visited by `for (k = 128; k > 1; k = k / 2)`. -/
def dividerSeq : List Nat := [128, 64, 32, 16, 8, 4, 2]

/-- The constructor's search: start at index `M = 7`, divider `k = 128`. -/
def constructorSearch (Q R : Nat) : Nat × Nat := prescLoop Q R dividerSeq 7

/-- The prescaler index `M` stored by the constructor. -/
def constructorM (Q R : Nat) : Nat := (constructorSearch Q R).1

/-- The divider value `k` left by the constructor's loop. -/
def constructorK (Q R : Nat) : Nat := (constructorSearch Q R).2

/-- `Num = 17 * k` (LTC2942.cpp line 45). -/
def Num (Q R : Nat) : Nat := 17 * constructorK Q R

/-- `Den = 4 * 128 * R` (LTC2942.cpp line 46). -/
def Den (R : Nat) : Nat := 4 * 128 * R

/-- `Offset = (65535 * Num / Den) - Q` (LTC2942.cpp line 47), read in
exact integer arithmetic: the quotient is the C unsigned division
(`65535 * Num ≤ 65535 * 2176 < 2^31`, exact), the subtraction is in `Int`. -/
def Offset (Q R : Nat) : Int := ((65535 * Num Q R / Den R : Nat) : Int) - (Q : Int)

/-- The charge conversion of `getAvailableCapacity` (LTC2942.cpp line 280)
in exact integer arithmetic: `adc_code * Num / Den - Offset`. -/
def chargeConvZ (Q R c : Nat) : Int := ((c * Num Q R / Den R : Nat) : Int) - Offset Q R

/-! ### Conversion formulas of the accessors -/

/-- Voltage conversion (LTC2942.cpp line 208):
`(unsigned short)(((int)adc_code * FULLSCALE_VOLTAGE) >> 16)`.
For `c ≤ 65535` the product is `≤ 65535 * 6000 < 2^31` and the result is
`≤ 5999 < 2^16`, so the casts drop nothing. -/
def voltageConv (c : Nat) : Nat := (c * FULLSCALE_VOLTAGE) >>> 16

/-- Temperature conversion (LTC2942.cpp line 245):
`((signed short)((((unsigned int)adc_code) * FULLSCALE_TEMPERATURE) >> 16)) - 2731`.
For `c ≤ 65535` the shifted value is `≤ 599`, so the `signed short` cast
is the identity and the subtraction is exact `Int` arithmetic. -/
def temperatureConv (c : Nat) : Int :=
  (((c * FULLSCALE_TEMPERATURE) >>> 16 : Nat) : Int) - 2731

/-- The datasheet temperature formula as the spec states it: die
temperature in tenths of a degree Celsius from the 600 K full scale,
`floor(c * 6000 / 65536) - 2731`.  This definition follows the spec's
words (it is the comparison target for the conversion the code
implements), not the source. -/
def specTemperatureTenths (c : Nat) : Int := ((c * 6000 / 65536 : Nat) : Int) - 2731

/-! ### Checked-division variant of the constructor's calibration

C integer division by zero is undefined behaviour (a fault).  To reason
about the presence or absence of division-by-zero faults, this variant
performs exactly the constructor's computation but returns `none` as soon
as any division's divisor is zero.  It is the same code path as
`prescLoop` / `Num` / `Den` / `Offset`, only with every `/` checked. -/

/-- C unsigned division, faulting (`none`) on a zero divisor. -/
def cdiv (a b : Nat) : Option Nat := if b = 0 then none else some (a / b)

/-- `278524 * k / R / 128` with both divisions checked. -/
def repCapChecked (R k : Nat) : Option Nat :=
  (cdiv (278524 * k) R).bind fun x => cdiv x 128

/-- The constructor's prescaler loop with checked division. -/
def prescLoopChecked (Q R : Nat) : List Nat → Nat → Option (Nat × Nat)
  | [], M => some (M, 1)
  | k :: ks, M =>
      match repCapChecked R k with
      | none => none
      | some a => if a < 2 * Q then some (M, k) else prescLoopChecked Q R ks (M - 1)

/-- The whole constructor body (LTC2942.cpp 30-47) with checked division:
the prescaler search followed by the derivation of `(M, Num, Den, Offset)`.
`none` means the C code performed a division by zero. -/
def calibrateChecked (Q R : Nat) : Option (Nat × Nat × Nat × Int) :=
  match prescLoopChecked Q R dividerSeq 7 with
  | none => none
  | some (M, k) =>
      match cdiv (65535 * (17 * k)) (4 * 128 * R) with
      | none => none
      | some q => some (M, 17 * k, 4 * 128 * R, (q : Int) - (Q : Int))

/-! ### Register transport (`LTC2942::readRegister`, LTC2942.cpp 296-314)

The bus is modelled by a function `bus : Nat → Option Nat` giving, per
register address, the outcome of the one-byte read transaction: `some b`
when `requestFrom` delivers exactly one byte `b`, `none` for any other
byte count. -/

/-- `readRegister`: the out-parameter is set to `0xFF` before the bus
transaction; on success (`res == 1`) it is overwritten with the received
byte and `SUCCESS` is returned, otherwise it keeps `0xFF` and `FAIL` is
returned.  Result is `(return code, out-parameter)`. -/
def readRegister (bus : Nat → Option Nat) (reg : Nat) : Nat × Nat :=
  let output := 0xFF
  match bus reg with
  | some b => (SUCCESS, b)
  | none => (FAIL, output)

/-! ### Measurement accessors (LTC2942.cpp 160-283)

Each accessor reads the MSB register into byte 1 and the LSB register
into byte 0 of a little-endian 16-bit local (`adc_code = 256 * hi + lo`),
ORs the two return codes, and on failure stores the sentinel. -/

/-- `getRawCharge` (LTC2942.cpp 160-173). -/
def getRawCharge (bus : Nat → Option Nat) : Nat × Nat :=
  let r1 := readRegister bus ACCUM_CHARGE_MSB_REG
  let r2 := readRegister bus ACCUM_CHARGE_LSB_REG
  let retCode := r1.1 ||| r2.1
  let val := 256 * r1.2 + r2.2
  if retCode = FAIL then (retCode, USHRT_MAX) else (retCode, val)

/-- `getVoltage` (LTC2942.cpp 194-212). -/
def getVoltage (bus : Nat → Option Nat) : Nat × Nat :=
  let r1 := readRegister bus VOLTAGE_MSB_REG
  let r2 := readRegister bus VOLTAGE_LSB_REG
  let retCode := r1.1 ||| r2.1
  let adc_code := 256 * r1.2 + r2.2
  if retCode = FAIL then (retCode, USHRT_MAX) else (retCode, voltageConv adc_code)

/-- `getTemperature` (LTC2942.cpp 231-249). -/
def getTemperature (bus : Nat → Option Nat) : Nat × Int :=
  let r1 := readRegister bus TEMPERATURE_MSB_REG
  let r2 := readRegister bus TEMPERATURE_LSB_REG
  let retCode := r1.1 ||| r2.1
  let adc_code := 256 * r1.2 + r2.2
  if retCode = FAIL then (retCode, SHRT_MAX) else (retCode, temperatureConv adc_code)

/-- `getAvailableCapacity` (LTC2942.cpp 264-283) for the instance
constructed from `(Q, R)`; the success branch computes
`(unsigned short)(adc_code * Num / Den - Offset)` (the cast to
`unsigned short` is reduction mod 2^16 of the exact integer value). -/
def getAvailableCapacity (Q R : Nat) (bus : Nat → Option Nat) : Nat × Nat :=
  let r1 := readRegister bus ACCUM_CHARGE_MSB_REG
  let r2 := readRegister bus ACCUM_CHARGE_LSB_REG
  let retCode := r1.1 ||| r2.1
  let adc_code := 256 * r1.2 + r2.2
  if retCode = FAIL then (retCode, USHRT_MAX)
  else (retCode, ((((adc_code * Num Q R / Den R : Nat) : Int) - Offset Q R).emod 65536).toNat)

/-! ### The accumulator set sequence (`LTC2942::setRawCharge`, LTC2942.cpp 133-145)

Here the device's register file is explicit (`DevState`), transport calls
are numbered within the sequence and may fail by a failure schedule
`fails : Nat → Bool`, and every issued transaction is recorded on a
trace, so the order of bus operations is observable. -/

/-- A register read or write transaction as issued on the bus. -/
inductive Transaction where
  | read : Nat → Transaction
  | write : Nat → Nat → Transaction
deriving DecidableEq

/-- The device's register file. -/
structure DevState where
  regs : Nat → Nat

/-- Transport read of call number `n` in a sequence: the transaction is
issued (recorded) unconditionally; on failure the out-parameter is the
`0xFF` that `readRegister` pre-stored.  Result is
`(return code, out-parameter, trace)`. -/
def readRegisterAt (fails : Nat → Bool) (n : Nat) (s : DevState) (reg : Nat)
    (tr : List Transaction) : Nat × Nat × List Transaction :=
  let tr2 := tr ++ [Transaction.read reg]
  if fails n then (FAIL, 0xFF, tr2) else (SUCCESS, s.regs reg, tr2)

/-- Transport write of call number `n` in a sequence: the transaction is
issued (recorded) unconditionally; a failed write leaves the register
file unchanged.  Result is `(return code, new state, trace)`. -/
def writeRegisterAt (fails : Nat → Bool) (n : Nat) (s : DevState) (reg v : Nat)
    (tr : List Transaction) : Nat × DevState × List Transaction :=
  let tr2 := tr ++ [Transaction.write reg v]
  if fails n then (FAIL, s, tr2)
  else (SUCCESS, ⟨fun r => if r = reg then v else s.regs r⟩, tr2)

/-- `setRawCharge` (LTC2942.cpp 133-145): read the control register
(saving it), write it back with the shutdown bit set, write the value's
MSB then LSB to the accumulator registers, write the saved control byte
back, OR-ing all five return codes into `retCode`.  The value parameter
is a C `unsigned short`, whose bytes are `val % 65536 / 256` (byte 1)
and `val % 256` (byte 0).  Result is `(retCode, final state, trace)`. -/
def setRawCharge (fails : Nat → Bool) (s : DevState) (val : Nat) :
    Nat × DevState × List Transaction :=
  let v := val % 65536
  let (r0, reg_save, t0) := readRegisterAt fails 0 s CONTROL_REG []
  let (r1, s1, t1) := writeRegisterAt fails 1 s CONTROL_REG (reg_save ||| SHUTDOWN_MODE) t0
  let (r2, s2, t2) := writeRegisterAt fails 2 s1 ACCUM_CHARGE_MSB_REG (v / 256) t1
  let (r3, s3, t3) := writeRegisterAt fails 3 s2 ACCUM_CHARGE_LSB_REG (v % 256) t2
  let (r4, s4, t4) := writeRegisterAt fails 4 s3 CONTROL_REG reg_save t3
  (r0 ||| r1 ||| r2 ||| r3 ||| r4, s4, t4)

/-- Claim C7: for the fixed full-scale voltage constant 6000 mV and
full-scale raw code 0xFFFF, the implemented divide-by-65536 conversion
(which yields 5999) differs from the datasheet-exact divide-by-65535
formula (which yields exactly 6000) by 1 mV, less than the ~78 mV device
LSB. -/
theorem voltage_fullscale_approx_bound :
    voltageConv 0xFFFF = 5999 ∧
    0xFFFF * FULLSCALE_VOLTAGE / 65535 = 6000 ∧
    0xFFFF * FULLSCALE_VOLTAGE / 65535 - voltageConv 0xFFFF < 78 := by
  refine ⟨?_, ?_, ?_⟩ <;> decide

/-- Claim C4 (code bug, evaluation at the failing input): at full-scale
code 0xFFFF the implemented conversion `(c * 600) >> 16 - 2731` yields
-2132, while the spec's tenth-of-Celsius formula from the 600 K full
scale, `floor(c * 6000 / 65536) - 2731`, yields 3268.  The code's result
is whole kelvins minus a tenths-of-degree offset, never the documented
0.1 °C unit. -/
theorem temperature_conv_diverges_from_spec :
    temperatureConv 0xFFFF = -2132 ∧ specTemperatureTenths 0xFFFF = 3268 ∧
    temperatureConv 0xFFFF ≠ specTemperatureTenths 0xFFFF := by
  refine ⟨?_, ?_, ?_⟩ <;> decide

/-- Claim C1: for every `Q` and every `R > 0`, the constructor's search
starts at index 7 and walks the dividers 128, 64, ..., 2, 1, stopping at
the first divider whose representable capacity is below `2 * Q`,
decrementing the index once per failed step and never below zero: the
stored index is in `{0..7}`, the final divider is `2 ^ index`, every
index above the stored one failed the margin test, and a nonzero stored
index passed it. -/
theorem prescaler_search_spec (Q R : Nat) (hR : 0 < R) :
    constructorM Q R ≤ 7 ∧
    constructorK Q R = 2 ^ constructorM Q R ∧
    (∀ j, constructorM Q R < j → j ≤ 7 → ¬ repCap R (2 ^ j) < 2 * Q) ∧
    (0 < constructorM Q R → repCap R (2 ^ constructorM Q R) < 2 * Q) := by
  simp only [constructorM, constructorK, constructorSearch, dividerSeq, prescLoop]
  split_ifs with h1 h2 h3 h4 h5 h6 h7 <;>
    refine ⟨by norm_num, by norm_num, ?_, ?_⟩ <;>
    first
      | (intro j hj1 hj2
         interval_cases j <;> simpa using (by assumption : ¬ _ < 2 * Q))
      | (intro hM; simpa using (by assumption : _ < 2 * Q))
      | (intro hM; exact absurd hM (by norm_num))

/-- Claim C1 witness: at `Q = 2000` mAh and `R = 10` mOhm the search
stops inside the sequence and the proved properties hold there. -/
theorem prescaler_search_spec_witness :
    constructorM 2000 10 ≤ 7 ∧ constructorK 2000 10 = 2 ^ constructorM 2000 10 :=
  ⟨(prescaler_search_spec 2000 10 (by decide)).1,
   (prescaler_search_spec 2000 10 (by decide)).2.1⟩

/-- The prescaler loop never returns an index above the one it starts
from (the C `M--` only decrements). -/
theorem prescLoop_fst_le (Q R : Nat) : ∀ (L : List Nat) (M : Nat), (prescLoop Q R L M).1 ≤ M := by
  intro L
  induction L with
  | nil => intro M; simp [prescLoop]
  | cons k ks ih =>
      intro M
      by_cases h : repCap R k < 2 * Q
      · simp [prescLoop, h]
      · simp only [prescLoop, if_neg h]
        exact le_trans (ih (M - 1)) (Nat.sub_le M 1)

/-- The prescaler loop's index is monotone in the rated capacity: a
smaller capacity makes the margin test harder, so the loop runs at least
as far. -/
theorem prescLoop_mono (Q1 Q2 R : Nat) (hQ : Q1 ≤ Q2) :
    ∀ (L : List Nat) (M : Nat), (prescLoop Q1 R L M).1 ≤ (prescLoop Q2 R L M).1 := by
  intro L
  induction L with
  | nil => intro M; simp [prescLoop]
  | cons k ks ih =>
      intro M
      by_cases h2 : repCap R k < 2 * Q2
      · simp only [prescLoop, if_pos h2]
        exact prescLoop_fst_le Q1 R (k :: ks) M
      · have h1 : ¬ repCap R k < 2 * Q1 := fun hl => h2 (lt_of_lt_of_le hl (by omega))
        simp only [prescLoop, if_neg h1, if_neg h2]
        exact ih (M - 1)

/-- Claim C9: holding the sense resistance fixed, the derived prescaler
index is monotonically non-increasing as the capacity decreases: for
`R > 0` and `Q1 ≤ Q2`, the index from `(Q1, R)` is at most the index
from `(Q2, R)`. -/
theorem prescaler_index_monotone (R Q1 Q2 : Nat) (hR : 0 < R) (hQ : Q1 ≤ Q2) :
    constructorM Q1 R ≤ constructorM Q2 R :=
  prescLoop_mono Q1 Q2 R hQ dividerSeq 7

/-- Claim C9 witness: at `R = 10`, `Q1 = 1000 ≤ Q2 = 2000`. -/
theorem prescaler_index_monotone_witness : constructorM 1000 10 ≤ constructorM 2000 10 :=
  prescaler_index_monotone 10 1000 2000 (by decide) (by decide)

/-- Claim C6: for every calibration derived from `(Q, R)` with `R > 0`,
the all-ones raw code maps back to exactly the rated capacity: in exact
integer arithmetic `65535 * Num / Den - Offset = Q`, because `Offset` is
defined as that quotient minus `Q`. -/
theorem charge_conv_fullscale (Q R : Nat) (hR : 0 < R) : chargeConvZ Q R 65535 = (Q : Int) := by
  simp only [chargeConvZ, Offset]
  omega

/-- Claim C6 witness: at `Q = 2000`, `R = 10` the full-scale code
converts to exactly 2000 mAh. -/
theorem charge_conv_fullscale_witness : chargeConvZ 2000 10 65535 = (2000 : Int) :=
  charge_conv_fullscale 2000 10 (by decide)

/-- When `R ≠ 0`, the checked representable-capacity computation does
not fault and agrees with the total one. -/
theorem repCapChecked_eq (R k : Nat) (hR : R ≠ 0) : repCapChecked R k = some (repCap R k) := by
  simp [repCapChecked, cdiv, hR, repCap]

/-- When `R ≠ 0`, the checked prescaler loop does not fault and agrees
with the total one. -/
theorem prescLoopChecked_eq (Q R : Nat) (hR : R ≠ 0) :
    ∀ (L : List Nat) (M : Nat), prescLoopChecked Q R L M = some (prescLoop Q R L M) := by
  intro L
  induction L with
  | nil => intro M; simp [prescLoopChecked, prescLoop]
  | cons k ks ih =>
      intro M
      simp only [prescLoopChecked, prescLoop, repCapChecked_eq R k hR]
      by_cases h : repCap R k < 2 * Q
      · simp [h]
      · simp [h, ih]

/-- Claim C5 counterexample: at `Q = 2000`, `R = 0` the constructor's
computation performs a division by zero (the checked evaluation faults),
so it does not hold that the computation completes without a
division-by-zero fault for every input. -/
theorem calibrate_div_by_zero_at_R0 : calibrateChecked 2000 0 = none := rfl

/-- Claim C5 (amended): for every `Q` and every `R > 0` the constructor's
calibration completes without a division-by-zero fault; the code has no
guard for `R = 0`, where it divides by zero. -/
theorem calibrate_no_div_fault (Q R : Nat) (hR : 0 < R) :
    (calibrateChecked Q R).isSome = true := by
  have hR0 : R ≠ 0 := by omega
  simp only [calibrateChecked, prescLoopChecked_eq Q R hR0 dividerSeq 7]
  simp [cdiv, hR0]

/-- Claim C5 witness: at `Q = 2000`, `R = 10` the calibration completes. -/
theorem calibrate_no_div_fault_witness : (calibrateChecked 2000 10).isSome = true :=
  calibrate_no_div_fault 2000 10 (by decide)

/-- Claim C10: `readRegister` pre-stores `0xFF` in its out-parameter, so
whenever the bus does not deliver exactly one byte the caller observes
the fixed byte `0xFF` together with `FAIL`; it returns `SUCCESS` exactly
when one byte was received, and then the out-parameter holds that byte. -/
theorem readRegister_spec (bus : Nat → Option Nat) (reg : Nat) :
    (bus reg = none → readRegister bus reg = (FAIL, 0xFF)) ∧
    (∀ b, bus reg = some b → readRegister bus reg = (SUCCESS, b)) ∧
    ((readRegister bus reg).1 = SUCCESS ↔ (bus reg).isSome = true) := by
  cases h : bus reg <;> simp [readRegister, h, SUCCESS, FAIL]

/-- Claim C10 witness: a failing bus yields `(FAIL, 0xFF)`, a bus
delivering byte 3 yields `(SUCCESS, 3)`. -/
theorem readRegister_spec_witness :
    readRegister (fun _ => none) STATUS_REG = (FAIL, 0xFF) ∧
    readRegister (fun _ => some 3) STATUS_REG = (SUCCESS, 3) :=
  ⟨(readRegister_spec (fun _ => none) STATUS_REG).1 rfl,
   (readRegister_spec (fun _ => some 3) STATUS_REG).2.1 3 rfl⟩

/-- Claim C3: for each measurement accessor, if either of its two
one-byte register reads fails, the accessor stores the documented
sentinel (`USHRT_MAX` for the unsigned outputs, `SHRT_MAX` for the
signed temperature) in the out-parameter and returns `FAIL`. -/
theorem accessor_failure_sentinels (bus : Nat → Option Nat) (Q R : Nat) :
    ((bus ACCUM_CHARGE_MSB_REG = none ∨ bus ACCUM_CHARGE_LSB_REG = none) →
       getRawCharge bus = (FAIL, USHRT_MAX) ∧
       getAvailableCapacity Q R bus = (FAIL, USHRT_MAX)) ∧
    ((bus VOLTAGE_MSB_REG = none ∨ bus VOLTAGE_LSB_REG = none) →
       getVoltage bus = (FAIL, USHRT_MAX)) ∧
    ((bus TEMPERATURE_MSB_REG = none ∨ bus TEMPERATURE_LSB_REG = none) →
       getTemperature bus = (FAIL, SHRT_MAX)) := by
  refine ⟨fun h => ?_, fun h => ?_, fun h => ?_⟩
  · rcases h with h | h <;>
      [cases hb : bus ACCUM_CHARGE_LSB_REG; cases hb : bus ACCUM_CHARGE_MSB_REG] <;>
      simp [getRawCharge, getAvailableCapacity, readRegister, h, hb, SUCCESS, FAIL]
  · rcases h with h | h <;>
      [cases hb : bus VOLTAGE_LSB_REG; cases hb : bus VOLTAGE_MSB_REG] <;>
      simp [getVoltage, readRegister, h, hb, SUCCESS, FAIL]
  · rcases h with h | h <;>
      [cases hb : bus TEMPERATURE_LSB_REG; cases hb : bus TEMPERATURE_MSB_REG] <;>
      simp [getTemperature, readRegister, h, hb, SUCCESS, FAIL]

/-- Claim C3 witness: on a bus where every read fails, all four
accessors return `FAIL` with their sentinel. -/
theorem accessor_failure_sentinels_witness :
    getRawCharge (fun _ => none) = (FAIL, USHRT_MAX) ∧
    getAvailableCapacity 2000 10 (fun _ => none) = (FAIL, USHRT_MAX) ∧
    getVoltage (fun _ => none) = (FAIL, USHRT_MAX) ∧
    getTemperature (fun _ => none) = (FAIL, SHRT_MAX) := by
  obtain ⟨h1, h2, h3⟩ := accessor_failure_sentinels (fun _ => none) 2000 10
  exact ⟨(h1 (Or.inl rfl)).1, (h1 (Or.inl rfl)).2, h2 (Or.inl rfl), h3 (Or.inl rfl)⟩

/-- Claim C2: for every failure schedule, `setRawCharge` issues exactly
the five transactions read-control, write-control-with-shutdown,
write-MSB, write-LSB, write-control-restore, in that order — in
particular the final restore write is attempted even when earlier steps
fail — and its return code is the logical OR of the per-step failures:
`SUCCESS` exactly when all five transport calls succeeded, `FAIL`
otherwise. -/
theorem setRawCharge_sequence (fails : Nat → Bool) (s : DevState) (val : Nat) :
    (setRawCharge fails s val).2.2 =
      [Transaction.read CONTROL_REG,
       Transaction.write CONTROL_REG
         ((readRegisterAt fails 0 s CONTROL_REG []).2.1 ||| SHUTDOWN_MODE),
       Transaction.write ACCUM_CHARGE_MSB_REG (val % 65536 / 256),
       Transaction.write ACCUM_CHARGE_LSB_REG (val % 65536 % 256),
       Transaction.write CONTROL_REG (readRegisterAt fails 0 s CONTROL_REG []).2.1] ∧
    ((setRawCharge fails s val).1 = SUCCESS ↔ ∀ n < 5, fails n = false) ∧
    ((setRawCharge fails s val).1 = FAIL ↔ ¬ ∀ n < 5, fails n = false) := by
  have hall : (∀ n < 5, fails n = false) ↔
      (fails 0 = false ∧ fails 1 = false ∧ fails 2 = false ∧ fails 3 = false ∧
       fails 4 = false) := by
    constructor
    · intro h
      exact ⟨h 0 (by omega), h 1 (by omega), h 2 (by omega), h 3 (by omega), h 4 (by omega)⟩
    · rintro ⟨a, b, c, d, e⟩ n hn
      interval_cases n <;> assumption
  rw [hall]
  cases h0 : fails 0 <;> cases h1 : fails 1 <;> cases h2 : fails 2 <;> cases h3 : fails 3 <;>
    cases h4 : fails 4 <;>
    simp [setRawCharge, readRegisterAt, writeRegisterAt, h0, h1, h2, h3, h4, SUCCESS, FAIL]

/-- Claim C8: when every transport call of the sequence succeeds, the
control register after `setRawCharge` equals its pre-call value
bit-for-bit, because the byte saved by the first read is written back
unmodified by the final write. -/
theorem control_register_restored (fails : Nat → Bool) (s : DevState) (val : Nat)
    (h : ∀ n < 5, fails n = false) :
    (setRawCharge fails s val).2.1.regs CONTROL_REG = s.regs CONTROL_REG := by
  have h0 := h 0 (by omega)
  have h1 := h 1 (by omega)
  have h2 := h 2 (by omega)
  have h3 := h 3 (by omega)
  have h4 := h 4 (by omega)
  simp [setRawCharge, readRegisterAt, writeRegisterAt, h0, h1, h2, h3, h4]

/-- Claim C8 witness: with no failures, a control register holding
`0xC2` before the call holds `0xC2` after it. -/
theorem control_register_restored_witness :
    (setRawCharge (fun _ => false) ⟨fun _ => 0xC2⟩ 500).2.1.regs CONTROL_REG = 0xC2 :=
  control_register_restored (fun _ => false) ⟨fun _ => 0xC2⟩ 500 (fun n _ => rfl)

end LTC2942
